import Mathlib

/-!
Shallow embedding of `src/cf_dns_manager.py`, an interactive Cloudflare DNS
manager.  Console prompts become explicit string parameters, HTTP calls become
explicit response parameters (`Except ReqException _`), and the side effects of
each action (which request bodies are sent, whether the process crashes or
exits) are returned as data.

Modeling conventions, noted once here:
* Python `str.upper` / `str.lower` are `pyUpper` / `pyLower` below, ASCII case
  maps (the strings the program compares against are ASCII, where they agree
  with Python).
* Python `int(s)` is `pyInt` below: optional sign followed by decimal digits
  (Python additionally strips whitespace and allows `+` and underscores, which
  no claim depends on); a `none` result models the `ValueError` that `int`
  raises on malformed input (the program does not catch it, so it is an
  unhandled, fatal exception, modeled by the `crashed` outcome below).
* Python string truthiness (`s or t`, `if s:`) is emptiness testing; integer
  truthiness is comparison with 0.
* `sys.exit(1)` is modeled as `Except.error 1` (the exit code).
* JSON dictionaries built by the program are association lists
  `List (String × Value)` in insertion order, so key presence and order are
  preserved exactly as the program would serialize them.
-/

/-- ASCII upper-casing, modeling Python `str.upper` on the ASCII inputs the
program compares (`Char.toUpper` only affects ASCII letters). -/
def pyUpper (s : String) : String :=
  String.mk (s.data.map Char.toUpper)

/-- ASCII lower-casing, modeling Python `str.lower`. -/
def pyLower (s : String) : String :=
  String.mk (s.data.map Char.toLower)

def digitVal (c : Char) : Option Nat :=
  if c.isDigit then some (c.toNat - 48) else none

def parseDigits : List Char → Option Nat
  | [] => none
  | cs => cs.foldl
      (fun acc c =>
        match acc, digitVal c with
        | some n, some d => some (n * 10 + d)
        | _, _ => none)
      (some 0)

/-- Python `int(s)`: optional minus sign then a non-empty digit string. -/
def pyInt (s : String) : Option Int :=
  match s.data with
  | '-' :: rest => (parseDigits rest).map (fun n => -(n : Int))
  | cs => (parseDigits cs).map (fun n => (n : Int))

/-- A JSON-ish value as used by the program: strings, ints, booleans. -/
inductive Value where
  | str (s : String)
  | int (n : Int)
  | bool (b : Bool)
deriving DecidableEq, Repr

/-- Python `str()` on the values the program passes to `str` / the table. -/
def pyStr : Value → String
  | .str s => s
  | .int n => toString n
  | .bool b => if b then "True" else "False"

/-- Python truthiness of a JSON value. -/
def pyTruthy : Value → Bool
  | .str s => s ≠ ""
  | .int n => n ≠ 0
  | .bool b => b

/-- Python `a or b` on strings: `b` when `a` is empty (falsy), else `a`. -/
def pyOr (a b : String) : String :=
  if a = "" then b else a

/-- A DNS record as fetched from the provider, with the fields the program
reads.  `priority` is optional: Cloudflare includes it only for some record
types, and the program reads it with `record.get` in front of missing keys. -/
structure DnsRecord where
  id : String
  type : String
  name : String
  content : String
  ttl : Int
  priority : Option Int
  proxied : Bool
deriving DecidableEq, Repr

/-- Python truthiness of `record.get("priority", "")`: the empty-string default
is falsy, and an integer priority is falsy exactly when it is 0. -/
def prioTruthy : Option Int → Bool
  | some p => p ≠ 0
  | none => false

/-- A `requests` exception.  `raw` is `str(e)`; `response` is `e.response`,
which is `none` for pure transport failures (connection errors).  When a
response is present, `errors` is `some msgs` when `e.response.json()["errors"]`
is a list whose entries carry `"message"` fields, and `none` when that chain of
lookups would itself raise (non-JSON body, missing key). -/
structure RespBody where
  errors : Option (List String)
deriving DecidableEq, Repr

structure ReqException where
  raw : String
  response : Option RespBody
deriving DecidableEq, Repr

/-- The expression `e.response.json()["errors"][0]["message"]` from the
`except` blocks of `add_dns_record` / `update_dns_record`: it produces a
message only when a response with a non-empty parsed error list is present;
in every other case that expression itself raises (AttributeError on a `None`
response, or a JSON/key/index error). -/
def extractFirstError (e : ReqException) : Option String :=
  match e.response with
  | none => none
  | some body =>
    match body.errors with
    | none => none
    | some msgs => msgs.head?

/-- What an action run does, as observed by the user/process. -/
inductive Outcome where
  | success
  | reported (msg : String)
  | notFound
  | cancelled
  | crashed
deriving DecidableEq, Repr

def Outcome.isReported : Outcome → Bool
  | .reported _ => true
  | _ => false

/-- The shared `except requests.exceptions.RequestException` handler of
`add_dns_record` and `update_dns_record` (lines 107-109 and 156-158): it
unconditionally evaluates `e.response.json()["errors"][0]["message"]`, so it
reports a message when one can be extracted and otherwise raises an unhandled
exception of its own (fatal). -/
def writeErrorOutcome (e : ReqException) : Outcome :=
  match extractFirstError e with
  | some m => .reported m
  | none => .crashed

/-- A zone entry of the `GET /zones?name=...` response; the program reads only
its `id` field. -/
structure ZoneEntry where
  id : String
deriving DecidableEq, Repr

/-- `get_zone_id` (lines 28-42), with the HTTP interaction abstracted into the
`resp` parameter: either the parsed `result` list or a request exception.
`Except.error 1` models `sys.exit(1)`; `Except.ok zid` models returning the
zone id. -/
def get_zone_id (resp : Except ReqException (List ZoneEntry)) :
    Except Nat String :=
  match resp with
  | .error _ => .error 1
  | .ok zones =>
    match zones with
    | [] => .error 1
    | z :: _ => .ok z.id

/-- `get_dns_records` (lines 44-53): returns the parsed `result` list, or on a
request exception prints the error and returns `[]`.  The first component is
the list of console error messages printed; the second is the return value. -/
def get_dns_records (resp : Except ReqException (List DnsRecord)) :
    List String × List DnsRecord :=
  match resp with
  | .ok records => ([], records)
  | .error e => (["API Request Error: " ++ e.raw], [])

/-- The console inputs consumed by `add_dns_record`, in prompt order.
`priorityInput` is only ever read when the normalized type is `MX`. -/
structure AddInputs where
  typeInput : String
  nameInput : String
  contentInput : String
  ttlInput : String
  priorityInput : String
  proxiedInput : String
deriving DecidableEq, Repr

/-- The `data` dictionary built by `add_dns_record` (lines 81-100), in
insertion order: type, name, content, ttl, then priority when the uppercased
type is `MX`, then proxied.  `Except.error` models the uncaught `ValueError`
from `int()` on a malformed ttl or priority input. -/
def add_priority_entries (record_type priority_str : String) :
    Except String (List (String × Value)) :=
  if record_type = "MX" then
    match pyInt priority_str with
    | some p => .ok [("priority", Value.int p)]
    | none => .error "ValueError"
  else .ok []

def add_record_data (i : AddInputs) : Except String (List (String × Value)) :=
  match (if i.ttlInput = "" then some 1 else pyInt i.ttlInput) with
  | none => .error "ValueError"
  | some ttl =>
    match add_priority_entries (pyUpper i.typeInput) i.priorityInput with
    | .error e => .error e
    | .ok prioEntries =>
      .ok ([("type", Value.str (pyUpper i.typeInput)),
            ("name", Value.str i.nameInput),
            ("content", Value.str i.contentInput), ("ttl", Value.int ttl)]
           ++ prioEntries
           ++ [("proxied", Value.bool (pyLower i.proxiedInput == "yes"))])

/-- A write action run: the request body sent (if any request was issued) and
the observed outcome. -/
structure WriteRun where
  sent : Option (List (String × Value))
  outcome : Outcome
deriving DecidableEq, Repr

/-- `add_dns_record` (lines 78-109) end to end: build the body, POST it, and
handle the response.  `resp` abstracts the POST result. -/
def add_dns_record (i : AddInputs) (resp : Except ReqException Unit) :
    WriteRun :=
  match add_record_data i with
  | .error _ => ⟨none, .crashed⟩
  | .ok body =>
    match resp with
    | .ok _ => ⟨some body, .success⟩
    | .error e => ⟨some body, writeErrorOutcome e⟩

/-- The console inputs consumed by `update_dns_record` after the record id,
in prompt order; empty strings model pressing Enter to keep current values. -/
structure UpdInputs where
  typeInput : String
  nameInput : String
  contentInput : String
  ttlInput : String
  priorityInput : String
  proxiedInput : String
deriving DecidableEq, Repr

/-- The priority portion of `update_dns_record` (lines 138-144): only when the
submitted type is `MX`, a non-empty input is parsed and used; otherwise the
snapshot priority is kept, but only when it is truthy (present and nonzero). -/
def update_priority_entries (r : DnsRecord) (record_type : String)
    (priority_str : String) : Except String (List (String × Value)) :=
  if record_type = "MX" then
    if priority_str ≠ "" then
      match pyInt priority_str with
      | some p => .ok [("priority", Value.int p)]
      | none => .error "ValueError"
    else
      match r.priority with
      | some p => if p ≠ 0 then .ok [("priority", Value.int p)] else .ok []
      | none => .ok []
  else .ok []

/-- The `data` dictionary built by `update_dns_record` (lines 125-148) for a
found record `r`: each field falls back to the snapshot value on empty input
(`or` / conditional expressions in the source), in insertion order type, name,
content, ttl, priority-when-added, proxied. -/
def update_record_data (r : DnsRecord) (i : UpdInputs) :
    Except String (List (String × Value)) :=
  match (if i.ttlInput = "" then some r.ttl else pyInt i.ttlInput) with
  | none => .error "ValueError"
  | some ttl =>
    match update_priority_entries r (pyOr i.typeInput r.type)
        i.priorityInput with
    | .error e => .error e
    | .ok prioEntries =>
      .ok ([("type", Value.str (pyOr i.typeInput r.type)),
            ("name", Value.str (pyOr i.nameInput r.name)),
            ("content", Value.str (pyOr i.contentInput r.content)),
            ("ttl", Value.int ttl)]
           ++ prioEntries
           ++ [("proxied", Value.bool
                  (if pyLower i.proxiedInput = "" then r.proxied
                   else pyLower i.proxiedInput == "yes"))])

/-- `update_dns_record` (lines 112-158) end to end for a given snapshot
`records` and entered `recordId`: find the record (`next(...)` over the
snapshot), report not-found, or build the body, PUT it and handle the
response. -/
def update_dns_record (records : List DnsRecord) (recordId : String)
    (i : UpdInputs) (resp : Except ReqException Unit) : WriteRun :=
  match records.find? (fun r => r.id == recordId) with
  | none => ⟨none, .notFound⟩
  | some r =>
    match update_record_data r i with
    | .error _ => ⟨none, .crashed⟩
    | .ok body =>
      match resp with
      | .ok _ => ⟨some body, .success⟩
      | .error e => ⟨some body, writeErrorOutcome e⟩

/-- A delete action run: whether the DELETE request was issued, and the
observed outcome. -/
structure DeleteRun where
  deleted : Bool
  outcome : Outcome
deriving DecidableEq, Repr

/-- `delete_dns_record` (lines 160-179): reject ids absent from the snapshot,
then require the lowercased confirmation to equal `yes` before issuing the
DELETE; the delete handler prints the raw exception (no structured
extraction). -/
def delete_dns_record (records : List DnsRecord) (recordId : String)
    (confirmation : String) (resp : Except ReqException Unit) : DeleteRun :=
  if records.any (fun r => r.id == recordId) then
    if pyLower confirmation == "yes" then
      match resp with
      | .ok _ => ⟨true, .success⟩
      | .error e => ⟨true, .reported ("Error deleting DNS record: " ++ e.raw)⟩
    else ⟨false, .cancelled⟩
  else ⟨false, .notFound⟩

/-- The snapshot record's own field set, laid out as the update body would be:
this is the comparison object of the idempotent no-op update property (spec
section 8), with priority included exactly when the snapshot carries one. -/
def snapshot_fields (r : DnsRecord) : List (String × Value) :=
  [("type", Value.str r.type), ("name", Value.str r.name),
   ("content", Value.str r.content), ("ttl", Value.int r.ttl)]
  ++ (match r.priority with
      | some p => [("priority", Value.int p)]
      | none => [])
  ++ [("proxied", Value.bool r.proxied)]

/-- All prompts of an update left blank (the user presses Enter everywhere). -/
def blank_update_inputs : UpdInputs := ⟨"", "", "", "", "", ""⟩

/-- A raw JSON record as consumed by `display_dns_records`: an association
list of field names to values, which may lack keys. -/
def Dict := List (String × Value)

def Dict.get? (r : Dict) (k : String) : Option Value :=
  List.lookup k r

/-- One `table.add_row(...)` call of `display_dns_records` (lines 66-75): the
seven cells, or a key-lookup failure when any of the six required subscripts
(`record["id"]`, `["type"]`, `["name"]`, `["content"]`, `["ttl"]`,
`["proxied"]`) is missing.  Priority is read with `record.get("priority",
"N/A")` and never fails. -/
def renderRow (record : Dict) : Except String (List String) :=
  match record.get? "id", record.get? "type", record.get? "name",
        record.get? "content", record.get? "ttl", record.get? "proxied" with
  | some i, some t, some n, some c, some ttlv, some prox =>
    .ok [pyStr i, pyStr t, pyStr n, pyStr c, pyStr ttlv,
         pyStr ((record.get? "priority").getD (Value.str "N/A")),
         if pyTruthy prox then "On" else "Off"]
  | _, _, _, _, _, _ => .error "KeyError"

/-- `display_dns_records` (lines 55-76): renders every record as a row; the
first key-lookup failure aborts the whole rendering (the Python `KeyError`
propagates out of the loop before any table is printed). -/
def display_dns_records : List Dict → Except String (List (List String))
  | [] => .ok []
  | r :: rest =>
    match renderRow r with
    | .error e => .error e
    | .ok row =>
      match display_dns_records rest with
      | .error e => .error e
      | .ok rows => .ok (row :: rows)

/-- The keys whose absence makes `display_dns_records` raise. -/
def requiredKeys : List String :=
  ["id", "type", "name", "content", "ttl", "proxied"]

example : add_record_data ⟨"mx", "mail", "mail.example.com", "", "10", "no"⟩ =
    .ok [("type", Value.str "MX"), ("name", Value.str "mail"),
         ("content", Value.str "mail.example.com"), ("ttl", Value.int 1),
         ("priority", Value.int 10), ("proxied", Value.bool false)] := rfl

example :
    update_record_data ⟨"r1", "MX", "mail", "mx.ex", 300, some 5, false⟩
      blank_update_inputs =
    .ok [("type", Value.str "MX"), ("name", Value.str "mail"),
         ("content", Value.str "mx.ex"), ("ttl", Value.int 300),
         ("priority", Value.int 5), ("proxied", Value.bool false)] := rfl

example :
    update_record_data ⟨"r1", "MX", "mail", "mx.ex", 300, none, false⟩
      blank_update_inputs =
    .ok [("type", Value.str "MX"), ("name", Value.str "mail"),
         ("content", Value.str "mx.ex"), ("ttl", Value.int 300),
         ("proxied", Value.bool false)] := rfl

example :
    (add_dns_record ⟨"A", "www", "1.2.3.4", "", "", "no"⟩
      (.error ⟨"Connection refused", none⟩)).outcome = .crashed := rfl

example :
    renderRow [("id", Value.str "r1"), ("type", Value.str "A"),
               ("name", Value.str "www"), ("content", Value.str "1.2.3.4"),
               ("ttl", Value.int 1), ("proxied", Value.bool true)] =
    .ok ["r1", "A", "www", "1.2.3.4", "1", "N/A", "On"] := rfl

/-- C6: zone resolution with an empty provider result list exits fatally with
code 1; with one or more entries it returns the first entry's id. -/
theorem claim_C6 (zones : List ZoneEntry) (z : ZoneEntry)
    (rest : List ZoneEntry) :
    (zones = [] → get_zone_id (.ok zones) = .error 1) ∧
    (zones = z :: rest → get_zone_id (.ok zones) = .ok z.id) := by
  constructor
  · intro h; subst h; rfl
  · intro h; subst h; rfl

theorem claim_C6_witness :
    get_zone_id (.ok ([] : List ZoneEntry)) = .error 1 ∧
    get_zone_id (.ok [ZoneEntry.mk "zone1", ZoneEntry.mk "zone2"]) =
      .ok "zone1" :=
  ⟨(claim_C6 [] ⟨"zone1"⟩ []).1 rfl,
   (claim_C6 [⟨"zone1"⟩, ⟨"zone2"⟩] ⟨"zone1"⟩ [⟨"zone2"⟩]).2 rfl⟩

/-- C7: a record listing that fails with a transport error returns the empty
sequence (rather than exiting) and prints the underlying error. -/
theorem claim_C7 (e : ReqException) :
    (get_dns_records (.error e)).2 = [] ∧
    (get_dns_records (.error e)).1 = ["API Request Error: " ++ e.raw] :=
  ⟨rfl, rfl⟩

/-- C3: for a record id present in the snapshot, the DELETE call is issued iff
the confirmation, lowercased, equals yes; any other confirmation cancels with
no request issued. -/
theorem claim_C3 (records : List DnsRecord) (rid conf : String)
    (resp : Except ReqException Unit)
    (h : ∃ r ∈ records, r.id = rid) :
    ((delete_dns_record records rid conf resp).deleted = true ↔
      pyLower conf = "yes") ∧
    (pyLower conf ≠ "yes" →
      delete_dns_record records rid conf resp = ⟨false, .cancelled⟩) := by
  obtain ⟨r, hr, hid⟩ := h
  have hany : records.any (fun x => x.id == rid) = true :=
    List.any_eq_true.mpr ⟨r, hr, by simp [hid]⟩
  constructor
  · by_cases hc : pyLower conf = "yes"
    · cases resp <;> simp [delete_dns_record, hany, hc]
    · simp [delete_dns_record, hany, hc]
  · intro hc
    simp [delete_dns_record, hany, hc]

theorem claim_C3_witness :
    ((delete_dns_record [⟨"r1", "A", "www", "1.2.3.4", 1, none, true⟩] "r1"
        "YES" (.ok ())).deleted = true ↔ pyLower "YES" = "yes") ∧
    (pyLower "YES" ≠ "yes" →
      delete_dns_record [⟨"r1", "A", "www", "1.2.3.4", 1, none, true⟩] "r1"
        "YES" (.ok ()) = ⟨false, .cancelled⟩) :=
  claim_C3 [⟨"r1", "A", "www", "1.2.3.4", 1, none, true⟩] "r1" "YES" (.ok ())
    ⟨⟨"r1", "A", "www", "1.2.3.4", 1, none, true⟩, by simp, rfl⟩

/-- C4: an update or delete whose entered id is absent from the snapshot
reports not-found and issues no write request. -/
theorem claim_C4 (records : List DnsRecord) (rid : String) (i : UpdInputs)
    (conf : String) (resp : Except ReqException Unit)
    (h : ∀ r ∈ records, r.id ≠ rid) :
    update_dns_record records rid i resp = ⟨none, .notFound⟩ ∧
    delete_dns_record records rid conf resp = ⟨false, .notFound⟩ := by
  have hfind : records.find? (fun x => x.id == rid) = none :=
    List.find?_eq_none.mpr (fun r hr => by simpa using h r hr)
  have hany : records.any (fun x => x.id == rid) = false :=
    List.any_eq_false.mpr (fun r hr => by simpa using h r hr)
  exact ⟨by simp [update_dns_record, hfind], by simp [delete_dns_record, hany]⟩

theorem claim_C4_witness :
    update_dns_record [⟨"r1", "A", "www", "1.2.3.4", 1, none, true⟩] "zzz"
      blank_update_inputs (.ok ()) = ⟨none, .notFound⟩ ∧
    delete_dns_record [⟨"r1", "A", "www", "1.2.3.4", 1, none, true⟩] "zzz"
      "yes" (.ok ()) = ⟨false, .notFound⟩ :=
  claim_C4 [⟨"r1", "A", "www", "1.2.3.4", 1, none, true⟩] "zzz"
    blank_update_inputs "yes" (.ok ()) (by decide)

/-- C2: a successfully built create body has exactly the keys type, name,
content, ttl, proxied, plus priority exactly when the uppercased type input is
MX, in insertion order. -/
theorem claim_C2 (i : AddInputs) (body : List (String × Value))
    (h : add_record_data i = .ok body) :
    body.map Prod.fst =
      if pyUpper i.typeInput = "MX" then
        ["type", "name", "content", "ttl", "priority", "proxied"]
      else
        ["type", "name", "content", "ttl", "proxied"] := by
  unfold add_record_data at h
  cases httl : (if i.ttlInput = "" then some (1 : Int) else pyInt i.ttlInput)
    with
  | none => rw [httl] at h; exact absurd h (by simp)
  | some ttl =>
    rw [httl] at h
    cases hpe : add_priority_entries (pyUpper i.typeInput) i.priorityInput
      with
    | error e => rw [hpe] at h; exact absurd h (by simp)
    | ok prioEntries =>
      rw [hpe] at h
      simp only [Except.ok.injEq] at h
      subst h
      unfold add_priority_entries at hpe
      by_cases hmx : pyUpper i.typeInput = "MX"
      · rw [if_pos hmx] at hpe
        cases hp : pyInt i.priorityInput with
        | none => rw [hp] at hpe; exact absurd hpe (by simp)
        | some p =>
          rw [hp] at hpe
          simp only [Except.ok.injEq] at hpe
          subst hpe
          simp [hmx]
      · rw [if_neg hmx] at hpe
        simp only [Except.ok.injEq] at hpe
        subst hpe
        simp [hmx]

theorem claim_C2_witness :
    ([("type", Value.str "MX"), ("name", Value.str "mail"),
      ("content", Value.str "mail.example.com"), ("ttl", Value.int 1),
      ("priority", Value.int 10), ("proxied", Value.bool false)].map
        Prod.fst) =
      if pyUpper "mx" = "MX" then
        ["type", "name", "content", "ttl", "priority", "proxied"]
      else
        ["type", "name", "content", "ttl", "proxied"] :=
  claim_C2 ⟨"mx", "mail", "mail.example.com", "", "10", "no"⟩ _ rfl

/-- C9: in a successfully built create body, the type field is the uppercased
type input, an empty ttl input yields ttl 1, and the proxied field is true
exactly when the lowercased proxy input equals yes. -/
theorem claim_C9 (i : AddInputs) (body : List (String × Value))
    (h : add_record_data i = .ok body) :
    List.lookup "type" body = some (Value.str (pyUpper i.typeInput)) ∧
    (i.ttlInput = "" → List.lookup "ttl" body = some (Value.int 1)) ∧
    List.lookup "proxied" body =
      some (Value.bool (pyLower i.proxiedInput == "yes")) := by
  unfold add_record_data at h
  cases httl : (if i.ttlInput = "" then some (1 : Int) else pyInt i.ttlInput)
    with
  | none => rw [httl] at h; exact absurd h (by simp)
  | some ttl =>
    rw [httl] at h
    have httl1 : i.ttlInput = "" → ttl = 1 := by
      intro he
      rw [if_pos he] at httl
      exact (Option.some.inj httl).symm
    cases hpe : add_priority_entries (pyUpper i.typeInput) i.priorityInput
      with
    | error e => rw [hpe] at h; exact absurd h (by simp)
    | ok prioEntries =>
      rw [hpe] at h
      simp only [Except.ok.injEq] at h
      subst h
      unfold add_priority_entries at hpe
      by_cases hmx : pyUpper i.typeInput = "MX"
      · rw [if_pos hmx] at hpe
        cases hp : pyInt i.priorityInput with
        | none => rw [hp] at hpe; exact absurd hpe (by simp)
        | some p =>
          rw [hp] at hpe
          simp only [Except.ok.injEq] at hpe
          subst hpe
          refine ⟨by simp [List.lookup], ?_, by simp [List.lookup]⟩
          intro he
          simp [List.lookup, httl1 he]
      · rw [if_neg hmx] at hpe
        simp only [Except.ok.injEq] at hpe
        subst hpe
        refine ⟨by simp [List.lookup], ?_, by simp [List.lookup]⟩
        intro he
        simp [List.lookup, httl1 he]

theorem claim_C9_witness :
    (List.lookup "type"
        [("type", Value.str "A"), ("name", Value.str "www"),
         ("content", Value.str "1.2.3.4"), ("ttl", Value.int 1),
         ("proxied", Value.bool false)] =
      some (Value.str (pyUpper "a")) ∧
    ("" = "" → List.lookup "ttl"
        [("type", Value.str "A"), ("name", Value.str "www"),
         ("content", Value.str "1.2.3.4"), ("ttl", Value.int 1),
         ("proxied", Value.bool false)] = some (Value.int 1)) ∧
    List.lookup "proxied"
        [("type", Value.str "A"), ("name", Value.str "www"),
         ("content", Value.str "1.2.3.4"), ("ttl", Value.int 1),
         ("proxied", Value.bool false)] =
      some (Value.bool (pyLower "No" == "yes"))) :=
  claim_C9 ⟨"a", "www", "1.2.3.4", "", "", "No"⟩ _ rfl

/-- Helper for C1: a blank-input update of a record whose snapshot satisfies
the data-model constraint on priority (present only for MX, and positive)
rebuilds exactly the snapshot's own field values. -/
theorem update_blank_eq_snapshot (r : DnsRecord)
    (hinv : ∀ p, r.priority = some p → r.type = "MX" ∧ 0 < p) :
    update_record_data r blank_update_inputs = .ok (snapshot_fields r) := by
  have hlow : pyLower "" = "" := rfl
  cases hpr : r.priority with
  | none =>
    by_cases hmx : r.type = "MX" <;>
      simp [update_record_data, blank_update_inputs, update_priority_entries,
            snapshot_fields, pyOr, hlow, hpr, hmx]
  | some p =>
    obtain ⟨hmx, hpos⟩ := hinv p hpr
    have hne : p ≠ 0 := by omega
    simp [update_record_data, blank_update_inputs, update_priority_entries,
          snapshot_fields, pyOr, hlow, hpr, hmx, hne]

/-- C1: an update action in which every prompt is left blank submits a PUT
body equal, field for field, to the snapshot record's own values (type, name,
content, ttl, priority when present, proxied), for snapshot records obeying
the data model (priority an optional positive integer, present only for MX
records). -/
theorem claim_C1 (records : List DnsRecord) (rid : String) (r : DnsRecord)
    (resp : Except ReqException Unit)
    (hfind : records.find? (fun x => x.id == rid) = some r)
    (hinv : ∀ p, r.priority = some p → r.type = "MX" ∧ 0 < p) :
    (update_dns_record records rid blank_update_inputs resp).sent =
      some (snapshot_fields r) := by
  have hdata := update_blank_eq_snapshot r hinv
  cases resp <;> simp [update_dns_record, hfind, hdata]

theorem claim_C1_witness :
    (update_dns_record
        [⟨"r1", "MX", "mail", "mx.example.com", 300, some 10, false⟩] "r1"
        blank_update_inputs (.ok ())).sent =
      some (snapshot_fields
        ⟨"r1", "MX", "mail", "mx.example.com", 300, some 10, false⟩) :=
  claim_C1 [⟨"r1", "MX", "mail", "mx.example.com", 300, some 10, false⟩]
    "r1" ⟨"r1", "MX", "mail", "mx.example.com", 300, some 10, false⟩
    (.ok ()) rfl
    (fun p hp => by
      injection hp with h
      subst h
      exact ⟨rfl, by decide⟩)

/-- C5 amended: on a failing create or update request, the handler reports
the first structured error message when the exception's response carries one;
when it does not (no response at all, an unparseable body, or an empty error
list), the handler itself raises an unhandled exception — a crash, not a
non-fatal report of the raw transport error. -/
theorem claim_C5 (i : AddInputs) (records : List DnsRecord) (rid : String)
    (j : UpdInputs) (r : DnsRecord) (bAdd bUpd : List (String × Value))
    (e : ReqException) (m : String) :
    (add_record_data i = .ok bAdd →
      (extractFirstError e = some m →
        (add_dns_record i (.error e)).outcome = .reported m) ∧
      (extractFirstError e = none →
        (add_dns_record i (.error e)).outcome = .crashed)) ∧
    (records.find? (fun x => x.id == rid) = some r →
      update_record_data r j = .ok bUpd →
      (extractFirstError e = some m →
        (update_dns_record records rid j (.error e)).outcome = .reported m) ∧
      (extractFirstError e = none →
        (update_dns_record records rid j (.error e)).outcome = .crashed)) := by
  constructor
  · intro hb
    exact ⟨fun hm => by simp [add_dns_record, hb, writeErrorOutcome, hm],
           fun hm => by simp [add_dns_record, hb, writeErrorOutcome, hm]⟩
  · intro hf hb
    exact ⟨fun hm => by
             simp [update_dns_record, hf, hb, writeErrorOutcome, hm],
           fun hm => by
             simp [update_dns_record, hf, hb, writeErrorOutcome, hm]⟩

theorem claim_C5_witness :
    (add_dns_record ⟨"A", "www", "1.2.3.4", "", "", "no"⟩
        (.error ⟨"400 Client Error", some ⟨some ["DNS validation error"]⟩⟩)
        ).outcome = .reported "DNS validation error" ∧
    (update_dns_record [⟨"r1", "A", "www", "1.2.3.4", 1, none, true⟩] "r1"
        blank_update_inputs
        (.error ⟨"400 Client Error", some ⟨some ["DNS validation error"]⟩⟩)
        ).outcome = .reported "DNS validation error" :=
  ⟨((claim_C5 ⟨"A", "www", "1.2.3.4", "", "", "no"⟩
      [⟨"r1", "A", "www", "1.2.3.4", 1, none, true⟩] "r1"
      blank_update_inputs ⟨"r1", "A", "www", "1.2.3.4", 1, none, true⟩
      [("type", Value.str "A"), ("name", Value.str "www"),
       ("content", Value.str "1.2.3.4"), ("ttl", Value.int 1),
       ("proxied", Value.bool false)]
      [("type", Value.str "A"), ("name", Value.str "www"),
       ("content", Value.str "1.2.3.4"), ("ttl", Value.int 1),
       ("proxied", Value.bool true)]
      ⟨"400 Client Error", some ⟨some ["DNS validation error"]⟩⟩
      "DNS validation error").1 rfl).1 rfl,
   (((claim_C5 ⟨"A", "www", "1.2.3.4", "", "", "no"⟩
      [⟨"r1", "A", "www", "1.2.3.4", 1, none, true⟩] "r1"
      blank_update_inputs ⟨"r1", "A", "www", "1.2.3.4", 1, none, true⟩
      [("type", Value.str "A"), ("name", Value.str "www"),
       ("content", Value.str "1.2.3.4"), ("ttl", Value.int 1),
       ("proxied", Value.bool false)]
      [("type", Value.str "A"), ("name", Value.str "www"),
       ("content", Value.str "1.2.3.4"), ("ttl", Value.int 1),
       ("proxied", Value.bool true)]
      ⟨"400 Client Error", some ⟨some ["DNS validation error"]⟩⟩
      "DNS validation error").2 rfl rfl).1 rfl)⟩

/-- C5 counterexample to the claim as stated: a create submission failing with
a transport error that carries no response body does not produce a non-fatal
report — the handler dereferences the absent response and the action crashes
with an unhandled exception. -/
theorem claim_C5_counterexample :
    (add_dns_record ⟨"A", "www", "1.2.3.4", "", "", "no"⟩
        (.error ⟨"Connection refused", none⟩)).outcome = .crashed ∧
    Outcome.isReported
      ((add_dns_record ⟨"A", "www", "1.2.3.4", "", "", "no"⟩
        (.error ⟨"Connection refused", none⟩)).outcome) = false :=
  ⟨rfl, rfl⟩

/-- Helper for C8: the create-mode priority entries carry the priority key
exactly when the (already uppercased) type is MX. -/
theorem add_priority_entries_mem (record_type priority_str : String)
    (l : List (String × Value))
    (h : add_priority_entries record_type priority_str = .ok l) :
    ("priority" ∈ l.map Prod.fst ↔ record_type = "MX") := by
  unfold add_priority_entries at h
  by_cases hmx : record_type = "MX"
  · rw [if_pos hmx] at h
    cases hp : pyInt priority_str with
    | none => rw [hp] at h; exact absurd h (by simp)
    | some p =>
      rw [hp] at h
      simp only [Except.ok.injEq] at h
      subst h
      simp [hmx]
  · rw [if_neg hmx] at h
    simp only [Except.ok.injEq] at h
    subst h
    simp [hmx]

/-- Helper for C8: the update-mode priority entries carry the priority key
exactly when the submitted type is MX and either a new priority was typed or
the snapshot's priority is truthy (present and nonzero). -/
theorem update_priority_entries_mem (r : DnsRecord)
    (record_type priority_str : String) (l : List (String × Value))
    (h : update_priority_entries r record_type priority_str = .ok l) :
    ("priority" ∈ l.map Prod.fst ↔
      record_type = "MX" ∧
        (priority_str ≠ "" ∨ prioTruthy r.priority = true)) := by
  unfold update_priority_entries at h
  by_cases hmx : record_type = "MX"
  · rw [if_pos hmx] at h
    by_cases hps : priority_str ≠ ""
    · rw [if_pos hps] at h
      cases hp : pyInt priority_str with
      | none => rw [hp] at h; exact absurd h (by simp)
      | some p =>
        rw [hp] at h
        simp only [Except.ok.injEq] at h
        subst h
        simp [hmx, hps]
    · rw [if_neg hps] at h
      cases hpr : r.priority with
      | none =>
        rw [hpr] at h
        simp only [Except.ok.injEq] at h
        subst h
        simp [hmx, hps, prioTruthy, hpr]
      | some p =>
        rw [hpr] at h
        by_cases hp0 : p ≠ 0
        · simp only [if_pos hp0, Except.ok.injEq] at h
          subst h
          simp [hmx, hps, prioTruthy, hpr, hp0]
        · simp only [if_neg hp0, Except.ok.injEq] at h
          subst h
          simp [hmx, hps, prioTruthy, hpr, hp0]
  · rw [if_neg hmx] at h
    simp only [Except.ok.injEq] at h
    subst h
    simp [hmx]

/-- C8 amended: a submitted body carries the priority field only if the
submitted type is MX; in create mode it carries it exactly when the uppercased
type input is MX, but in update mode exactly when the submitted type is MX and
either a new priority was entered or the snapshot's priority is present and
nonzero — so an MX update whose snapshot lacks a priority and whose priority
prompt is left blank submits no priority field. -/
theorem claim_C8 (i : AddInputs) (j : UpdInputs) (r : DnsRecord)
    (bAdd bUpd : List (String × Value)) :
    (add_record_data i = .ok bAdd →
      ("priority" ∈ bAdd.map Prod.fst ↔ pyUpper i.typeInput = "MX")) ∧
    (update_record_data r j = .ok bUpd →
      ("priority" ∈ bUpd.map Prod.fst ↔
        (pyOr j.typeInput r.type = "MX" ∧
          (j.priorityInput ≠ "" ∨ prioTruthy r.priority = true)))) := by
  constructor
  · intro h
    unfold add_record_data at h
    cases httl : (if i.ttlInput = "" then some (1 : Int) else pyInt i.ttlInput)
      with
    | none => rw [httl] at h; exact absurd h (by simp)
    | some ttl =>
      rw [httl] at h
      cases hpe : add_priority_entries (pyUpper i.typeInput) i.priorityInput
        with
      | error e => rw [hpe] at h; exact absurd h (by simp)
      | ok prioEntries =>
        rw [hpe] at h
        simp only [Except.ok.injEq] at h
        subst h
        have := add_priority_entries_mem _ _ _ hpe
        simpa using this
  · intro h
    unfold update_record_data at h
    cases httl : (if j.ttlInput = "" then some r.ttl else pyInt j.ttlInput)
      with
    | none => rw [httl] at h; exact absurd h (by simp)
    | some ttl =>
      rw [httl] at h
      cases hpe : update_priority_entries r (pyOr j.typeInput r.type)
          j.priorityInput with
      | error e => rw [hpe] at h; exact absurd h (by simp)
      | ok prioEntries =>
        rw [hpe] at h
        simp only [Except.ok.injEq] at h
        subst h
        have := update_priority_entries_mem _ _ _ _ hpe
        simpa using this

theorem claim_C8_witness :
    (("priority" ∈
        ([("type", Value.str "MX"), ("name", Value.str "mail"),
          ("content", Value.str "mail.example.com"), ("ttl", Value.int 1),
          ("priority", Value.int 10), ("proxied", Value.bool false)].map
            Prod.fst) ↔ pyUpper "mx" = "MX")) ∧
    (("priority" ∈
        ([("type", Value.str "MX"), ("name", Value.str "mail"),
          ("content", Value.str "mx.ex"), ("ttl", Value.int 300),
          ("priority", Value.int 20), ("proxied", Value.bool false)].map
            Prod.fst) ↔
      (pyOr "" "MX" = "MX" ∧
        (("20" : String) ≠ "" ∨ prioTruthy (some 5) = true)))) :=
  ⟨(claim_C8 ⟨"mx", "mail", "mail.example.com", "", "10", "no"⟩
      ⟨"", "", "", "", "20", ""⟩ ⟨"r1", "MX", "mail", "mx.ex", 300, some 5,
        false⟩
      [("type", Value.str "MX"), ("name", Value.str "mail"),
       ("content", Value.str "mail.example.com"), ("ttl", Value.int 1),
       ("priority", Value.int 10), ("proxied", Value.bool false)]
      [("type", Value.str "MX"), ("name", Value.str "mail"),
       ("content", Value.str "mx.ex"), ("ttl", Value.int 300),
       ("priority", Value.int 20), ("proxied", Value.bool false)]).1 rfl,
   (claim_C8 ⟨"mx", "mail", "mail.example.com", "", "10", "no"⟩
      ⟨"", "", "", "", "20", ""⟩ ⟨"r1", "MX", "mail", "mx.ex", 300, some 5,
        false⟩
      [("type", Value.str "MX"), ("name", Value.str "mail"),
       ("content", Value.str "mail.example.com"), ("ttl", Value.int 1),
       ("priority", Value.int 10), ("proxied", Value.bool false)]
      [("type", Value.str "MX"), ("name", Value.str "mail"),
       ("content", Value.str "mx.ex"), ("ttl", Value.int 300),
       ("priority", Value.int 20), ("proxied", Value.bool false)]).2 rfl⟩

/-- C8 counterexample to the claim as stated: updating an MX record whose
snapshot has no priority, leaving the priority prompt blank, submits a body
whose type is MX but which carries no priority field. -/
theorem claim_C8_counterexample :
    update_record_data ⟨"rec1", "MX", "mail", "mail.example.com", 1, none,
        false⟩ blank_update_inputs =
      Except.ok [("type", Value.str "MX"), ("name", Value.str "mail"),
                 ("content", Value.str "mail.example.com"),
                 ("ttl", Value.int 1), ("proxied", Value.bool false)] ∧
    "priority" ∉
      ([("type", Value.str "MX"), ("name", Value.str "mail"),
        ("content", Value.str "mail.example.com"), ("ttl", Value.int 1),
        ("proxied", Value.bool false)].map Prod.fst) :=
  ⟨rfl, by decide⟩

/-- C10: rendering is total exactly on records carrying the six required keys.
When all six are present the record renders (and a missing priority key shows
the literal N/A in the sixth, Priority, column); when any required key is
missing, rendering raises a key-lookup failure instead of producing a row. -/
theorem claim_C10 (r : Dict) (k : String) :
    ((∀ k2 ∈ requiredKeys, (Dict.get? r k2).isSome = true) →
      (display_dns_records [r]).toOption.isSome = true ∧
      (Dict.get? r "priority" = none →
        (renderRow r).toOption.bind (fun row => row.get? 5) = some "N/A")) ∧
    (k ∈ requiredKeys → Dict.get? r k = none →
      renderRow r = .error "KeyError" ∧
      display_dns_records [r] = .error "KeyError") := by
  constructor
  · intro h
    obtain ⟨vi, hvi⟩ :=
      Option.isSome_iff_exists.mp (h "id" (by simp [requiredKeys]))
    obtain ⟨vt, hvt⟩ :=
      Option.isSome_iff_exists.mp (h "type" (by simp [requiredKeys]))
    obtain ⟨vn, hvn⟩ :=
      Option.isSome_iff_exists.mp (h "name" (by simp [requiredKeys]))
    obtain ⟨vc, hvc⟩ :=
      Option.isSome_iff_exists.mp (h "content" (by simp [requiredKeys]))
    obtain ⟨vl, hvl⟩ :=
      Option.isSome_iff_exists.mp (h "ttl" (by simp [requiredKeys]))
    obtain ⟨vp, hvp⟩ :=
      Option.isSome_iff_exists.mp (h "proxied" (by simp [requiredKeys]))
    constructor
    · simp [display_dns_records, renderRow, hvi, hvt, hvn, hvc, hvl, hvp,
            Except.toOption]
    · intro hprio
      simp [renderRow, hvi, hvt, hvn, hvc, hvl, hvp, hprio, Except.toOption,
            pyStr, List.get?]
  · intro hk hnone
    have hrr : renderRow r = .error "KeyError" := by
      have h6 : Dict.get? r "id" = none ∨ Dict.get? r "type" = none ∨
          Dict.get? r "name" = none ∨ Dict.get? r "content" = none ∨
          Dict.get? r "ttl" = none ∨ Dict.get? r "proxied" = none := by
        simp only [requiredKeys, List.mem_cons, List.not_mem_nil,
          or_false] at hk
        rcases hk with rfl | rfl | rfl | rfl | rfl | rfl <;> simp [hnone]
      cases h1 : Dict.get? r "id" <;> cases h2 : Dict.get? r "type" <;>
        cases h3 : Dict.get? r "name" <;> cases h4 : Dict.get? r "content" <;>
        cases h5 : Dict.get? r "ttl" <;> cases h6p : Dict.get? r "proxied" <;>
        simp_all [renderRow]
    exact ⟨hrr, by simp [display_dns_records, hrr]⟩

theorem claim_C10_witness :
    ((display_dns_records
        [[("id", Value.str "r1"), ("type", Value.str "A"),
          ("name", Value.str "www"), ("content", Value.str "1.2.3.4"),
          ("ttl", Value.int 1), ("proxied", Value.bool true)]]
      ).toOption.isSome = true ∧
      (Dict.get?
          [("id", Value.str "r1"), ("type", Value.str "A"),
           ("name", Value.str "www"), ("content", Value.str "1.2.3.4"),
           ("ttl", Value.int 1), ("proxied", Value.bool true)] "priority" =
          none →
        (renderRow
            [("id", Value.str "r1"), ("type", Value.str "A"),
             ("name", Value.str "www"), ("content", Value.str "1.2.3.4"),
             ("ttl", Value.int 1), ("proxied", Value.bool true)]
          ).toOption.bind (fun row => row.get? 5) = some "N/A")) ∧
    (renderRow
        [("id", Value.str "r1"), ("name", Value.str "www"),
         ("content", Value.str "1.2.3.4"), ("ttl", Value.int 1),
         ("proxied", Value.bool true)] = .error "KeyError" ∧
      display_dns_records
        [[("id", Value.str "r1"), ("name", Value.str "www"),
          ("content", Value.str "1.2.3.4"), ("ttl", Value.int 1),
          ("proxied", Value.bool true)]] = .error "KeyError") :=
  ⟨(claim_C10
      [("id", Value.str "r1"), ("type", Value.str "A"),
       ("name", Value.str "www"), ("content", Value.str "1.2.3.4"),
       ("ttl", Value.int 1), ("proxied", Value.bool true)] "type").1
      (by decide),
   (claim_C10
      [("id", Value.str "r1"), ("name", Value.str "www"),
       ("content", Value.str "1.2.3.4"), ("ttl", Value.int 1),
       ("proxied", Value.bool true)] "type").2 (by decide) (by decide)⟩
